import Mathlib

/-!
Shallow embedding of the flux-screensavers Windows DXGI interop layer
(src/windows/src/platform/windows/dxgi_swapchain.rs) and of the settings
window update loop (src/windows/src/settings_window.rs).

External calls (Direct3D, WGL, OpenGL, the OS error query, Config::save) are
modelled by an explicit environment recording the outcome each call would
return, and every call the code performs is recorded as an event in a trace,
so that ordering properties of the source are provable statements about the
trace.  All definitions follow the Rust source line by line; the numeric
constants are the values of the corresponding Win32/OpenGL constants.
-/

/-! ### Constants (values of the Win32 / OpenGL constants used by the source) -/

/-- OpenGL RENDERBUFFER object type (glow constant 0x8D41). -/
def GL_RENDERBUFFER : Nat := 0x8D41

/-- OpenGL TEXTURE_2D object type (glow constant 0x0DE1). -/
def GL_TEXTURE_2D : Nat := 0x0DE1

/-- OpenGL FRAMEBUFFER binding target (glow constant 0x8D40). -/
def GL_FRAMEBUFFER : Nat := 0x8D40

/-- OpenGL COLOR_ATTACHMENT0 attachment point (glow constant 0x8CE0). -/
def GL_COLOR_ATTACHMENT0 : Nat := 0x8CE0

/-- OpenGL framebuffer status: complete (0x8CD5). -/
def GL_FRAMEBUFFER_COMPLETE : Nat := 0x8CD5

/-- OpenGL framebuffer status: unsupported (0x8CDD). -/
def GL_FRAMEBUFFER_UNSUPPORTED : Nat := 0x8CDD

/-- OpenGL framebuffer status: incomplete attachment (0x8CD6). -/
def GL_FRAMEBUFFER_INCOMPLETE_ATTACHMENT : Nat := 0x8CD6

/-- OpenGL framebuffer status: missing attachment (0x8CD7). -/
def GL_FRAMEBUFFER_INCOMPLETE_MISSING_ATTACHMENT : Nat := 0x8CD7

/-- WGL_ACCESS_READ_WRITE_DISCARD_NV access flag (dxgi_swapchain.rs line 69). -/
def WGL_ACCESS_READ_WRITE_DISCARD_NV : Nat := 2

/-- DXGI_FORMAT_R8G8B8A8_UNORM pixel format (DXGI constant 28). -/
def DXGI_FORMAT_R8G8B8A8_UNORM : Nat := 28

/-- DXGI_USAGE_RENDER_TARGET_OUTPUT buffer usage (DXGI constant 0x20). -/
def DXGI_USAGE_RENDER_TARGET_OUTPUT : Nat := 0x20

/-- DXGI_SWAP_EFFECT_DISCARD swap effect (DXGI constant 0). -/
def DXGI_SWAP_EFFECT_DISCARD : Nat := 0

/-- D3D_DRIVER_TYPE_HARDWARE driver type (D3D constant 1). -/
def D3D_DRIVER_TYPE_HARDWARE : Nat := 1

/-- D3D11_CREATE_DEVICE_SINGLETHREADED creation flag (D3D11 constant 0x1).
The source deliberately passes creation flags 0, so this flag is not set. -/
def D3D11_CREATE_DEVICE_SINGLETHREADED : Nat := 1

/-! ### Strings used by the source -/

/-- The vendor substring checked by is_intel_gpu (dxgi_swapchain.rs line 117). -/
def intelVendorName : String := "Intel"

/-- The WGL extension token checked before resolving the interop entry points
(dxgi_swapchain.rs line 202). -/
def interopToken : String := "WGL_NV_DX_interop2"

/-- Name of the extensions-string query entry point (dxgi_swapchain.rs line 189). -/
def extStringFnName : String := "wglGetExtensionsStringARB"

/-- The seven interop entry points resolved at dxgi_swapchain.rs lines 207-231,
in source order. -/
def interopEntryPointNames : List String :=
  ["wglDXCloseDeviceNV", "wglDXLockObjectsNV", "wglDXOpenDeviceNV",
   "wglDXRegisterObjectNV", "wglDXSetResourceShareHandleNV",
   "wglDXUnlockObjectsNV", "wglDXUnregisterObjectNV"]

/-- Failure message for a non-Win32 raw window handle (line 134). -/
def msgOnlyWin32 : String := "Only Win32 handles can be used to create a DXGI swapchain"

/-- Failure message when D3D11CreateDeviceAndSwapChain fails (line 174). -/
def msgCreateFailed : String := "Failed to create DXGI device and swapchain"

/-- Failure message when wglDXOpenDeviceNV returns an invalid handle (lines
258-263).  The source renders the OS error with Debug formatting; the model
keeps the message prefix and the numeric last-error code. -/
def msgOpenDeviceFailed (code : Nat) : String :=
  "Failed to open the GL DX interop device. OS Error: " ++ toString code

/-- Failure message when the texture registration also fails (lines 294-299). -/
def msgRegisterTextureFailed (code : Nat) : String :=
  "Failed to register texture with DXGI. OS Error: " ++ toString code

/-- Failure message for an incomplete framebuffer attachment (line 331). -/
def msgIncompleteAttachment : String := "GL Framebuffer incomplete attachment"

/-- Failure message for a missing framebuffer attachment (line 334). -/
def msgMissingAttachment : String := "GL Framebuffer missing attachment"

/-- Rendering of a number the way Rust's alternate-hex formatting does
(lowercase digits, 0x first), used by the unknown-framebuffer-status message. -/
def rustHex (n : Nat) : String := "0x" ++ String.mk (Nat.toDigits 16 n)

/-- Failure message for any other framebuffer status, carrying the raw status
code in hex (line 336). -/
def msgOtherStatus (status : Nat) : String := "DXGI Framebuffer: " ++ rustHex status

/-! ### Substring containment (Rust str::contains with a literal pattern) -/

/-- Rust str::contains with a string pattern: the needle occurs as a
contiguous substring of the haystack. -/
def containsSubstr (hay needle : String) : Bool :=
  hay.toList.tails.any (fun t => needle.toList.isPrefixOf t)

/-- containsSubstr decides the mathematical substring (infix) relation. -/
theorem containsSubstr_iff (hay needle : String) :
    containsSubstr hay needle = true ↔ needle.toList <:+: hay.toList := by
  simp only [containsSubstr, List.any_eq_true, List.isPrefixOf_iff_prefix,
    List.mem_tails]
  rw [List.infix_iff_prefix_suffix]
  constructor
  · rintro ⟨t, ht, hp⟩
    exact ⟨t, hp, ht⟩
  · rintro ⟨t, hp, ht⟩
    exact ⟨t, ht, hp⟩

/-! ### Data model -/

/-- Win32 HANDLE, as the signed pointer-sized integer it wraps. -/
abbrev HANDLE := Int

/-- HANDLE::is_invalid from the windows crate: the null handle and
INVALID_HANDLE_VALUE (-1) are the invalid handles. -/
def HANDLE.isInvalid (h : HANDLE) : Bool := h == 0 || h == -1

/-- The error type of the interop layer (dxgi_swapchain.rs lines 27-31). -/
inductive Problem where
  | Unsupported : Problem
  | Failure : String → Problem
  deriving DecidableEq, Repr

/-- raw_window_handle::RawWindowHandle, reduced to the distinction the source
makes: the Win32 variant with its hwnd, and every other variant (tagged so
that distinct non-Win32 handles exist). -/
inductive RawWindowHandle where
  | Win32 : Int → RawWindowHandle
  | other : Nat → RawWindowHandle
  deriving DecidableEq, Repr

/-- The DXGI_SWAP_CHAIN_DESC fields the source sets explicitly (lines
151-168); the remaining fields are zero defaults in the source and are not
modelled. -/
structure SwapChainDesc where
  format : Nat
  bufferUsage : Nat
  bufferCount : Nat
  outputWindow : Int
  windowed : Bool
  swapEffect : Nat
  sampleCount : Nat
  sampleQuality : Nat
  deriving DecidableEq, Repr

/-- The interop context (dxgi_swapchain.rs lines 54-62), restricted to the
fields with observable content: the two interop handles and the framebuffer
object.  The COM pointers (device, context, swap_chain) and the function
table are opaque and live in the environment of the model. -/
structure DXGIInterop where
  gl_handle_d3d : HANDLE
  color_handle_gl : HANDLE
  fbo : Nat
  deriving DecidableEq, Repr

/-- One observable external call made by the interop layer. -/
inductive Event where
  | queryVendor : Event
  | createDeviceAndSwapChain : Nat → Nat → SwapChainDesc → Event
  | resolveProcAddress : String → Event
  | getExtensionsString : Event
  | getBuffer : Nat → Event
  | createRenderTargetView : Event
  | setRenderTargets : Event
  | clearRenderTarget : Event
  | openDevice : Int → Event
  | createFramebuffer : Event
  | createRenderbuffer : Event
  | deleteRenderbuffer : Nat → Event
  | createTexture : Event
  | registerObject : HANDLE → Int → Nat → Nat → Nat → Event
  | bindFramebuffer : Nat → Option Nat → Event
  | attachTexture2D : Nat → Nat → Nat → Nat → Nat → Event
  | attachRenderbuffer : Nat → Nat → Nat → Nat → Event
  | checkStatus : Nat → Event
  | lockObjects : HANDLE → Int → HANDLE → Event
  | renderCallback : Nat → Event
  | unlockObjects : HANDLE → Int → HANDLE → Event
  | present : Nat → Nat → Event
  deriving DecidableEq, Repr

/-- Whether an event is a wglDXRegisterObjectNV call. -/
def Event.isRegisterObject : Event → Bool
  | Event.registerObject _ _ _ _ _ => true
  | _ => false

/-- Whether an event resolves one of the seven interop entry points. -/
def Event.isInteropResolve : Event → Bool
  | Event.resolveProcAddress n => interopEntryPointNames.contains n
  | _ => false

/-- Whether an event is a wglDXOpenDeviceNV call. -/
def Event.isOpenDevice : Event → Bool
  | Event.openDevice _ => true
  | _ => false

/-- The outcomes of the external calls the interop layer makes: what the GL
driver, the D3D runtime and the WGL interop extension would return.  One
field per call site whose return value the source inspects. -/
structure DriverEnv where
  vendor : String
  d3dCreateOk : Bool
  extensionsString : Option String
  openDeviceHandle : HANDLE
  registerRenderbufferHandle : HANDLE
  registerTextureHandle : HANDLE
  fboName : Nat
  rboName : Nat
  textureName : Nat
  fbStatus : Nat
  lastOsError : Nat
  deviceRaw : Int
  colorBufferRaw : Int
  deriving Repr

/-! ### The interop layer, block by block -/

/-- is_intel_gpu (dxgi_swapchain.rs lines 114-118): case-sensitive substring
match of the GL vendor string against the single known-bad vendor name. -/
def is_intel_gpu (vendor : String) : Bool :=
  containsSubstr vendor intelVendorName

/-- The DXGI_SWAP_CHAIN_DESC the source builds for a given window (lines
151-168). -/
def swapChainDescFor (hwnd : Int) : SwapChainDesc :=
  { format := DXGI_FORMAT_R8G8B8A8_UNORM
    bufferUsage := DXGI_USAGE_RENDER_TARGET_OUTPUT
    bufferCount := 2
    outputWindow := hwnd
    windowed := true
    swapEffect := DXGI_SWAP_EFFECT_DISCARD
    sampleCount := 1
    sampleQuality := 0 }

/-- The resolution of the seven interop entry points (lines 207-231), as
trace events in source order. -/
def interopResolveEvents : List Event :=
  interopEntryPointNames.map Event.resolveProcAddress

/-- The extensions string the source ends up checking: the driver's string
when the query entry point resolved, the empty string otherwise (lines
192-197). -/
def extensionsOf (env : DriverEnv) : String :=
  match env.extensionsString with
  | some s => s
  | none => ""

/-- The events of fetching the extensions string: the query call happens only
when its entry point resolved (lines 192-197). -/
def extensionsEvents (env : DriverEnv) : List Event :=
  match env.extensionsString with
  | some _ => [Event.getExtensionsString]
  | none => []

/-- The framebuffer status match (lines 324-337): complete and the tolerated
unsupported status proceed; the two incomplete statuses and any unknown
status are failures, the unknown one carrying the raw code. -/
def checkStatusPolicy (status : Nat) : Except Problem Unit :=
  if status = GL_FRAMEBUFFER_COMPLETE then Except.ok ()
  else if status = GL_FRAMEBUFFER_UNSUPPORTED then Except.ok ()
  else if status = GL_FRAMEBUFFER_INCOMPLETE_ATTACHMENT then
    Except.error (Problem.Failure msgIncompleteAttachment)
  else if status = GL_FRAMEBUFFER_INCOMPLETE_MISSING_ATTACHMENT then
    Except.error (Problem.Failure msgMissingAttachment)
  else Except.error (Problem.Failure (msgOtherStatus status))

/-- Lines 324-349: query the framebuffer status, apply the status policy, and
on success unbind the framebuffer and assemble the context. -/
def statusStep (env : DriverEnv) (gl_handle_d3d color_handle_gl : HANDLE) (fbo : Nat) :
    List Event × Except Problem DXGIInterop :=
  match checkStatusPolicy env.fbStatus with
  | Except.error p => ([Event.checkStatus GL_FRAMEBUFFER], Except.error p)
  | Except.ok _ =>
      ([Event.checkStatus GL_FRAMEBUFFER, Event.bindFramebuffer GL_FRAMEBUFFER Option.none],
       Except.ok { gl_handle_d3d := gl_handle_d3d, color_handle_gl := color_handle_gl, fbo := fbo })

/-- Lines 234-349: fetch and clear the back buffer, open the interop device,
register the back buffer as a renderbuffer with the renderbuffer-to-texture
fallback, attach the surviving object, and validate the framebuffer. -/
def registrationStep (env : DriverEnv) : List Event × Except Problem DXGIInterop :=
  let t0 := [Event.getBuffer 0, Event.createRenderTargetView,
             Event.setRenderTargets, Event.clearRenderTarget]
  let gl_handle_d3d := env.openDeviceHandle
  let t1 := t0 ++ [Event.openDevice env.deviceRaw]
  if HANDLE.isInvalid gl_handle_d3d then
    (t1, Except.error (Problem.Failure (msgOpenDeviceFailed env.lastOsError)))
  else
    let fbo := env.fboName
    let rbo := env.rboName
    let t2 := t1 ++ [Event.createFramebuffer, Event.createRenderbuffer]
    let color_handle_gl := env.registerRenderbufferHandle
    let t3 := t2 ++ [Event.registerObject gl_handle_d3d env.colorBufferRaw rbo
                       GL_RENDERBUFFER WGL_ACCESS_READ_WRITE_DISCARD_NV]
    if HANDLE.isInvalid color_handle_gl then
      let texture := env.textureName
      let t4 := t3 ++ [Event.deleteRenderbuffer rbo, Event.createTexture,
                       Event.registerObject gl_handle_d3d env.colorBufferRaw texture
                         GL_TEXTURE_2D WGL_ACCESS_READ_WRITE_DISCARD_NV]
      if HANDLE.isInvalid env.registerTextureHandle then
        (t4, Except.error (Problem.Failure (msgRegisterTextureFailed env.lastOsError)))
      else
        let t5 := t4 ++ [Event.bindFramebuffer GL_FRAMEBUFFER (Option.some fbo),
                         Event.attachTexture2D GL_FRAMEBUFFER GL_COLOR_ATTACHMENT0
                           GL_TEXTURE_2D texture 0]
        let fin := statusStep env gl_handle_d3d env.registerTextureHandle fbo
        (t5 ++ fin.1, fin.2)
    else
      let t5 := t3 ++ [Event.bindFramebuffer GL_FRAMEBUFFER (Option.some fbo),
                       Event.attachRenderbuffer GL_FRAMEBUFFER GL_COLOR_ATTACHMENT0
                         GL_RENDERBUFFER rbo]
      let fin := statusStep env gl_handle_d3d color_handle_gl fbo
      (t5 ++ fin.1, fin.2)

/-- Lines 185-231: resolve the extensions-string query, check for the interop
token, and when present resolve the seven interop entry points and continue
with registration. -/
def extensionsStep (env : DriverEnv) : List Event × Except Problem DXGIInterop :=
  let t := Event.resolveProcAddress extStringFnName :: extensionsEvents env
  if containsSubstr (extensionsOf env) interopToken then
    (t ++ interopResolveEvents ++ (registrationStep env).1, (registrationStep env).2)
  else
    (t, Except.error Problem.Unsupported)

/-- Lines 174-182: the outcome of D3D11CreateDeviceAndSwapChain; on failure a
Failure is returned, otherwise the extension check follows. -/
def deviceAndSwapchainStep (env : DriverEnv) : List Event × Except Problem DXGIInterop :=
  if env.d3dCreateOk then extensionsStep env
  else ([], Except.error (Problem.Failure msgCreateFailed))

/-- create_dxgi_swapchain (dxgi_swapchain.rs lines 123-351): the Intel vendor
check, the Win32 handle check, then device/swapchain creation and the rest of
the construction.  Returns the trace of external calls together with the
result. -/
def create_dxgi_swapchain (env : DriverEnv) (raw_window_handle : RawWindowHandle) :
    List Event × Except Problem DXGIInterop :=
  if is_intel_gpu env.vendor then
    ([Event.queryVendor], Except.error Problem.Unsupported)
  else
    match raw_window_handle with
    | RawWindowHandle.Win32 hwnd =>
        (Event.queryVendor ::
           Event.createDeviceAndSwapChain D3D_DRIVER_TYPE_HARDWARE 0 (swapChainDescFor hwnd) ::
           (deviceAndSwapchainStep env).1,
         (deviceAndSwapchainStep env).2)
    | RawWindowHandle.other _ =>
        ([Event.queryVendor], Except.error (Problem.Failure msgOnlyWin32))

/-- with_dxgi_swapchain (dxgi_swapchain.rs lines 91-110): lock the shared
object, invoke the caller's render callback with the framebuffer object,
unlock, and present with sync interval 1 and flags 0.  The Present result is
received from the environment and dropped, mirroring the let _ binding in the
source. -/
def with_dxgi_swapchain (ctx : DXGIInterop) (presentResult : Int) : Unit × List Event :=
  let lockEvents := [Event.lockObjects ctx.gl_handle_d3d 1 ctx.color_handle_gl]
  let renderEvents := [Event.renderCallback ctx.fbo]
  let unlockEvents := [Event.unlockObjects ctx.gl_handle_d3d 1 ctx.color_handle_gl]
  let presentEvents := [Event.present 1 0]
  let _ignoredPresentResult := presentResult
  ((), lockEvents ++ renderEvents ++ unlockEvents ++ presentEvents)

/-! ### The settings window (settings_window.rs) -/

/-- The color-mode option (config.rs is outside the given sources; the
settings window only stores the chosen value, so the enumeration is modelled
as an opaque tag). -/
structure ColorMode where
  tag : Nat
  deriving DecidableEq, Repr

/-- The fill-mode option, modelled like ColorMode. -/
structure FillMode where
  tag : Nat
  deriving DecidableEq, Repr

/-- The flux section of the configuration (the field the settings window
touches). -/
structure FluxConfig where
  color_mode : ColorMode
  deriving DecidableEq, Repr

/-- The windows section of the platform configuration. -/
structure WindowsPlatform where
  fill_mode : FillMode
  deriving DecidableEq, Repr

/-- The platform section of the configuration. -/
structure PlatformConfig where
  windows : WindowsPlatform
  deriving DecidableEq, Repr

/-- The configuration the settings window edits. -/
structure Config where
  flux : FluxConfig
  platform : PlatformConfig
  deriving DecidableEq, Repr

/-- The messages of the settings window (settings_window.rs lines 21-26). -/
inductive Message where
  | SetColorMode : ColorMode → Message
  | SetFillMode : FillMode → Message
  | Save : Message
  deriving DecidableEq, Repr

/-- The command returned by an update step: keep running or close the
window. -/
inductive Command where
  | none : Command
  | close : Command
  deriving DecidableEq, Repr

/-- A log line emitted during an update step. -/
inductive LogEvent where
  | logError : String → LogEvent
  deriving DecidableEq, Repr

/-- Config::update (settings_window.rs lines 42-59).  The outcome of
Config::save (defined in config.rs, outside the given sources) is passed as
an explicit argument; on Save, a save error is logged and the window-close
command is returned unconditionally. -/
def Config.update (cfg : Config) (saveResult : Except String Unit) (msg : Message) :
    Config × Command × List LogEvent :=
  match msg with
  | Message.SetColorMode c =>
      ({ cfg with flux := { color_mode := c } }, Command.none, [])
  | Message.SetFillMode f =>
      ({ cfg with platform := { windows := { fill_mode := f } } }, Command.none, [])
  | Message.Save =>
      let logs := match saveResult with
        | Except.ok _ => []
        | Except.error e => [LogEvent.logError e]
      (cfg, Command.close, logs)

/-! ### Shared concrete environments for witnesses and counterexamples -/

/-- A WGL extensions string that contains the interop token. -/
def extsWithToken : String := "WGL_ARB_extensions_string WGL_NV_DX_interop WGL_NV_DX_interop2"

/-- A WGL extensions string without the interop token. -/
def extsWithoutToken : String := "WGL_ARB_extensions_string WGL_EXT_swap_control"

/-- A driver environment with an Intel vendor string. -/
def envIntel : DriverEnv :=
  { vendor := "Intel(R) UHD Graphics 620"
    d3dCreateOk := true
    extensionsString := Option.some extsWithToken
    openDeviceHandle := 5
    registerRenderbufferHandle := 7
    registerTextureHandle := 9
    fboName := 1
    rboName := 2
    textureName := 3
    fbStatus := GL_FRAMEBUFFER_COMPLETE
    lastOsError := 6
    deviceRaw := 10
    colorBufferRaw := 11 }

/-- A driver environment on which the whole construction succeeds through the
renderbuffer path. -/
def envOk : DriverEnv :=
  { vendor := "NVIDIA Corporation"
    d3dCreateOk := true
    extensionsString := Option.some extsWithToken
    openDeviceHandle := 5
    registerRenderbufferHandle := 7
    registerTextureHandle := 9
    fboName := 1
    rboName := 2
    textureName := 3
    fbStatus := GL_FRAMEBUFFER_COMPLETE
    lastOsError := 6
    deviceRaw := 10
    colorBufferRaw := 11 }

/-! ### Claim theorems -/

/-- Claim C2: every call of the render/present cycle produces, in strict
order, a lock of the single registered handle with count 1, exactly one
invocation of the caller's render callback with the context's framebuffer
object, an unlock of the same handle with count 1, and a Present with sync
interval 1 and flags 0; the Present result never influences the outcome. -/
theorem c2_render_present_cycle (ctx : DXGIInterop) (r r' : Int) :
    (with_dxgi_swapchain ctx r).2 =
      [Event.lockObjects ctx.gl_handle_d3d 1 ctx.color_handle_gl,
       Event.renderCallback ctx.fbo,
       Event.unlockObjects ctx.gl_handle_d3d 1 ctx.color_handle_gl,
       Event.present 1 0]
    ∧ with_dxgi_swapchain ctx r = with_dxgi_swapchain ctx r' := by
  exact ⟨rfl, rfl⟩

/-- Claim C9: the GPU-vendor check runs before the window-handle-kind check:
on an Intel vendor string the construction returns Unsupported whatever the
window handle is, with only the vendor query in the trace. -/
theorem c9_vendor_check_precedes_handle_check (env : DriverEnv) (h : RawWindowHandle)
    (hintel : is_intel_gpu env.vendor = true) :
    create_dxgi_swapchain env h = ([Event.queryVendor], Except.error Problem.Unsupported) := by
  simp [create_dxgi_swapchain, hintel]

/-- Witness for C9: a concrete Intel environment with a non-Win32 handle
yields Unsupported, not the handle-kind Failure. -/
theorem c9_witness :
    create_dxgi_swapchain envIntel (RawWindowHandle.other 0) =
      ([Event.queryVendor], Except.error Problem.Unsupported) :=
  c9_vendor_check_precedes_handle_check envIntel (RawWindowHandle.other 0) (by decide)

deriving instance DecidableEq for Except

/-- Counterexample to C8 as stated: on an Intel vendor string a non-Win32
handle is not rejected with the Win32-only Failure; the vendor check fires
first and the result is Unsupported. -/
theorem c8_counterexample_intel_non_win32 :
    (create_dxgi_swapchain envIntel (RawWindowHandle.other 0)).2 = Except.error Problem.Unsupported
    ∧ (create_dxgi_swapchain envIntel (RawWindowHandle.other 0)).2 ≠
        Except.error (Problem.Failure msgOnlyWin32) := by
  decide

/-- Claim C8 (amended): when the vendor check passes, every non-Win32 raw
window handle is rejected with the Win32-only Failure, and only the vendor
query precedes the rejection (no device, swapchain or extension work). -/
theorem c8_amended_non_win32_rejected (env : DriverEnv) (tag : Nat)
    (hintel : is_intel_gpu env.vendor = false) :
    create_dxgi_swapchain env (RawWindowHandle.other tag) =
      ([Event.queryVendor], Except.error (Problem.Failure msgOnlyWin32)) := by
  simp [create_dxgi_swapchain, hintel]

/-- Witness for the amended C8 at a concrete non-Intel environment. -/
theorem c8_amended_witness :
    create_dxgi_swapchain envOk (RawWindowHandle.other 5) =
      ([Event.queryVendor], Except.error (Problem.Failure msgOnlyWin32)) :=
  c8_amended_non_win32_rejected envOk 5 (by decide)

/-- ASCII-lowercasing of a string, used to state the case-variant reading of
the vendor check. -/
def lowerString (s : String) : String := String.mk (s.toList.map Char.toLower)

/-- Spec-side reading of claim C5: the haystack contains some case variant of
the needle, i.e. a substring equal to the needle up to character case. -/
def caseVariantContains (hay needle : String) : Bool :=
  containsSubstr (lowerString hay) (lowerString needle)

/-- An all-uppercase vendor string: a case variant of the Intel vendor name
occurs in it, but not the exact bytes. -/
def upperIntelVendor : String := "INTEL CORPORATION"

/-- Counterexample to C5 as stated: the all-uppercase vendor string contains
a case variant of the known-bad vendor name, yet is_intel_gpu reports
supported (false), because the code's match is case-sensitive. -/
theorem c5_counterexample_uppercase_vendor :
    caseVariantContains upperIntelVendor intelVendorName = true
    ∧ is_intel_gpu upperIntelVendor = false := by
  decide

/-- Claim C5 (amended): is_intel_gpu is exactly the case-sensitive substring
test: it returns true iff the vendor string contains the exact bytes of the
known-bad vendor name as a contiguous substring. -/
theorem c5_amended_case_sensitive (v : String) :
    is_intel_gpu v = true ↔ intelVendorName.toList <:+: v.toList := by
  rw [is_intel_gpu, containsSubstr_iff]

/-- Claim C10: handling the Save message always returns the window-close
command, whether saving succeeds or fails; a save error is only logged and
leaves the configuration untouched. -/
theorem c10_save_always_closes (cfg : Config) (e : String) :
    (Config.update cfg (Except.ok ()) Message.Save).2.1 = Command.close
    ∧ (Config.update cfg (Except.error e) Message.Save).2.1 = Command.close
    ∧ (Config.update cfg (Except.error e) Message.Save).2.2 = [LogEvent.logError e]
    ∧ (Config.update cfg (Except.error e) Message.Save).1 = cfg := by
  exact ⟨rfl, rfl, rfl, rfl⟩

/-! ### Helper lemmas about the step functions -/

/-- The status-validation step performs no registration call. -/
theorem statusStep_filter_registerObject (env : DriverEnv) (g c : HANDLE) (f : Nat) :
    (statusStep env g c f).1.filter Event.isRegisterObject = [] := by
  unfold statusStep
  cases checkStatusPolicy env.fbStatus <;> simp [Event.isRegisterObject]

/-- If the status step succeeds, the returned context is built from exactly
the handles and framebuffer it was given. -/
theorem statusStep_ok_inv (env : DriverEnv) (g c : HANDLE) (f : Nat) (ctx : DXGIInterop)
    (h : (statusStep env g c f).2 = Except.ok ctx) :
    ctx = { gl_handle_d3d := g, color_handle_gl := c, fbo := f } := by
  unfold statusStep at h
  cases hcp : checkStatusPolicy env.fbStatus <;> rw [hcp] at h
  · simp at h
  · simp only [Except.ok.injEq] at h
    exact h.symm

/-- If the registration step succeeds, the interop device handle and the
shared-object handle of the returned context are both valid, the device
handle came from wglDXOpenDeviceNV, and at least one of the two registration
attempts returned a valid handle. -/
theorem registrationStep_ok_inv (env : DriverEnv) (ctx : DXGIInterop)
    (h : (registrationStep env).2 = Except.ok ctx) :
    HANDLE.isInvalid ctx.gl_handle_d3d = false
    ∧ HANDLE.isInvalid ctx.color_handle_gl = false
    ∧ HANDLE.isInvalid env.openDeviceHandle = false
    ∧ (HANDLE.isInvalid env.registerRenderbufferHandle = false
        ∨ HANDLE.isInvalid env.registerTextureHandle = false) := by
  unfold registrationStep at h
  cases hopen : HANDLE.isInvalid env.openDeviceHandle
  · cases hrb : HANDLE.isInvalid env.registerRenderbufferHandle
    · simp [hopen, hrb] at h
      have hctx := statusStep_ok_inv env env.openDeviceHandle
        env.registerRenderbufferHandle env.fboName ctx h
      subst hctx
      exact ⟨hopen, hrb, rfl, Or.inl rfl⟩
    · cases htex : HANDLE.isInvalid env.registerTextureHandle
      · simp [hopen, hrb, htex] at h
        have hctx := statusStep_ok_inv env env.openDeviceHandle
          env.registerTextureHandle env.fboName ctx h
        subst hctx
        exact ⟨hopen, htex, rfl, Or.inr rfl⟩
      · simp [hopen, hrb, htex] at h
  · simp [hopen] at h

/-- If the whole construction succeeds, the registration step is what
produced the context. -/
theorem create_ok_inv (env : DriverEnv) (h : RawWindowHandle) (ctx : DXGIInterop)
    (hok : (create_dxgi_swapchain env h).2 = Except.ok ctx) :
    (registrationStep env).2 = Except.ok ctx := by
  unfold create_dxgi_swapchain deviceAndSwapchainStep extensionsStep at hok
  cases hintel : is_intel_gpu env.vendor
  · cases h with
    | Win32 hwnd =>
        cases hd3d : env.d3dCreateOk
        · simp [hintel, hd3d] at hok
        · cases hct : containsSubstr (extensionsOf env) interopToken
          · simp [hintel, hd3d, hct] at hok
          · simp only [hintel, hd3d, hct] at hok
            simpa using hok
    | other tag => simp [hintel] at hok
  · simp [hintel] at hok

/-! ### Remaining claim theorems -/

/-- Claim C1: when renderbuffer registration yields an invalid handle,
exactly one retry registration is performed, against a texture, with the same
device handle, back-buffer resource and read/write-discard access flag, the
abandoned renderbuffer being deleted before the retry; if the retry also
fails, construction fails with the platform's last error code. -/
theorem c1_renderbuffer_to_texture_fallback (env : DriverEnv) (hwnd : Int) (exts : String)
    (hintel : is_intel_gpu env.vendor = false)
    (hd3d : env.d3dCreateOk = true)
    (hs : env.extensionsString = Option.some exts)
    (hext : containsSubstr exts interopToken = true)
    (hopen : HANDLE.isInvalid env.openDeviceHandle = false)
    (hrb : HANDLE.isInvalid env.registerRenderbufferHandle = true) :
    (∃ pre post,
        (create_dxgi_swapchain env (RawWindowHandle.Win32 hwnd)).1 =
          pre ++
            [Event.registerObject env.openDeviceHandle env.colorBufferRaw env.rboName
               GL_RENDERBUFFER WGL_ACCESS_READ_WRITE_DISCARD_NV,
             Event.deleteRenderbuffer env.rboName,
             Event.createTexture,
             Event.registerObject env.openDeviceHandle env.colorBufferRaw env.textureName
               GL_TEXTURE_2D WGL_ACCESS_READ_WRITE_DISCARD_NV] ++ post)
    ∧ (create_dxgi_swapchain env (RawWindowHandle.Win32 hwnd)).1.filter Event.isRegisterObject =
        [Event.registerObject env.openDeviceHandle env.colorBufferRaw env.rboName
           GL_RENDERBUFFER WGL_ACCESS_READ_WRITE_DISCARD_NV,
         Event.registerObject env.openDeviceHandle env.colorBufferRaw env.textureName
           GL_TEXTURE_2D WGL_ACCESS_READ_WRITE_DISCARD_NV]
    ∧ (HANDLE.isInvalid env.registerTextureHandle = true →
        (create_dxgi_swapchain env (RawWindowHandle.Win32 hwnd)).2 =
          Except.error (Problem.Failure (msgRegisterTextureFailed env.lastOsError))) := by
  refine ⟨?_, ?_, ?_⟩
  · cases htex : HANDLE.isInvalid env.registerTextureHandle
    · refine ⟨[Event.queryVendor,
          Event.createDeviceAndSwapChain D3D_DRIVER_TYPE_HARDWARE 0 (swapChainDescFor hwnd),
          Event.resolveProcAddress extStringFnName, Event.getExtensionsString] ++
          interopResolveEvents ++
          [Event.getBuffer 0, Event.createRenderTargetView, Event.setRenderTargets,
           Event.clearRenderTarget, Event.openDevice env.deviceRaw,
           Event.createFramebuffer, Event.createRenderbuffer],
        [Event.bindFramebuffer GL_FRAMEBUFFER (Option.some env.fboName),
         Event.attachTexture2D GL_FRAMEBUFFER GL_COLOR_ATTACHMENT0 GL_TEXTURE_2D
           env.textureName 0] ++
          (statusStep env env.openDeviceHandle env.registerTextureHandle env.fboName).1, ?_⟩
      simp [create_dxgi_swapchain, deviceAndSwapchainStep, extensionsStep, extensionsEvents,
        extensionsOf, registrationStep, hintel, hd3d, hs, hext, hopen, hrb, htex]
    · refine ⟨[Event.queryVendor,
          Event.createDeviceAndSwapChain D3D_DRIVER_TYPE_HARDWARE 0 (swapChainDescFor hwnd),
          Event.resolveProcAddress extStringFnName, Event.getExtensionsString] ++
          interopResolveEvents ++
          [Event.getBuffer 0, Event.createRenderTargetView, Event.setRenderTargets,
           Event.clearRenderTarget, Event.openDevice env.deviceRaw,
           Event.createFramebuffer, Event.createRenderbuffer], [], ?_⟩
      simp [create_dxgi_swapchain, deviceAndSwapchainStep, extensionsStep, extensionsEvents,
        extensionsOf, registrationStep, hintel, hd3d, hs, hext, hopen, hrb, htex]
  · cases htex : HANDLE.isInvalid env.registerTextureHandle <;>
      simp [create_dxgi_swapchain, deviceAndSwapchainStep, extensionsStep, extensionsEvents,
        extensionsOf, registrationStep, hintel, hd3d, hs, hext, hopen, hrb, htex,
        interopResolveEvents, interopEntryPointNames, statusStep_filter_registerObject,
        Event.isRegisterObject, List.filter_append]
  · intro htex
    simp [create_dxgi_swapchain, deviceAndSwapchainStep, extensionsStep, extensionsEvents,
      extensionsOf, registrationStep, hintel, hd3d, hs, hext, hopen, hrb, htex]

/-- The success environment with both registration attempts failing. -/
def envFallbackFail : DriverEnv :=
  { envOk with registerRenderbufferHandle := 0, registerTextureHandle := 0 }

/-- Witness for C1: a concrete environment in which the renderbuffer
registration fails and the texture registration also fails. -/
theorem c1_witness :
    (∃ pre post,
        (create_dxgi_swapchain envFallbackFail (RawWindowHandle.Win32 0)).1 =
          pre ++
            [Event.registerObject 5 11 2 GL_RENDERBUFFER WGL_ACCESS_READ_WRITE_DISCARD_NV,
             Event.deleteRenderbuffer 2,
             Event.createTexture,
             Event.registerObject 5 11 3 GL_TEXTURE_2D WGL_ACCESS_READ_WRITE_DISCARD_NV] ++ post)
    ∧ (create_dxgi_swapchain envFallbackFail (RawWindowHandle.Win32 0)).1.filter
          Event.isRegisterObject =
        [Event.registerObject 5 11 2 GL_RENDERBUFFER WGL_ACCESS_READ_WRITE_DISCARD_NV,
         Event.registerObject 5 11 3 GL_TEXTURE_2D WGL_ACCESS_READ_WRITE_DISCARD_NV]
    ∧ (create_dxgi_swapchain envFallbackFail (RawWindowHandle.Win32 0)).2 =
        Except.error (Problem.Failure (msgRegisterTextureFailed 6)) := by
  have hmain := c1_renderbuffer_to_texture_fallback envFallbackFail 0 extsWithToken
    (by decide) (by decide) rfl (by decide) (by decide) (by decide)
  exact ⟨hmain.1, hmain.2.1, hmain.2.2 (by decide)⟩

/-- Claim C3: after attachment, the framebuffer-status policy is: complete
proceeds, the vendor-specific unsupported status proceeds, incomplete
attachment fails, missing attachment fails, and any other status fails with a
message carrying the raw code. -/
theorem c3_framebuffer_status_policy (env : DriverEnv) (hwnd : Int) (exts : String)
    (hintel : is_intel_gpu env.vendor = false)
    (hd3d : env.d3dCreateOk = true)
    (hs : env.extensionsString = Option.some exts)
    (hext : containsSubstr exts interopToken = true)
    (hopen : HANDLE.isInvalid env.openDeviceHandle = false)
    (hrb : HANDLE.isInvalid env.registerRenderbufferHandle = false) :
    (env.fbStatus = GL_FRAMEBUFFER_COMPLETE →
        (create_dxgi_swapchain env (RawWindowHandle.Win32 hwnd)).2 =
          Except.ok { gl_handle_d3d := env.openDeviceHandle,
                      color_handle_gl := env.registerRenderbufferHandle,
                      fbo := env.fboName })
    ∧ (env.fbStatus = GL_FRAMEBUFFER_UNSUPPORTED →
        (create_dxgi_swapchain env (RawWindowHandle.Win32 hwnd)).2 =
          Except.ok { gl_handle_d3d := env.openDeviceHandle,
                      color_handle_gl := env.registerRenderbufferHandle,
                      fbo := env.fboName })
    ∧ (env.fbStatus = GL_FRAMEBUFFER_INCOMPLETE_ATTACHMENT →
        (create_dxgi_swapchain env (RawWindowHandle.Win32 hwnd)).2 =
          Except.error (Problem.Failure msgIncompleteAttachment))
    ∧ (env.fbStatus = GL_FRAMEBUFFER_INCOMPLETE_MISSING_ATTACHMENT →
        (create_dxgi_swapchain env (RawWindowHandle.Win32 hwnd)).2 =
          Except.error (Problem.Failure msgMissingAttachment))
    ∧ (env.fbStatus ≠ GL_FRAMEBUFFER_COMPLETE →
        env.fbStatus ≠ GL_FRAMEBUFFER_UNSUPPORTED →
        env.fbStatus ≠ GL_FRAMEBUFFER_INCOMPLETE_ATTACHMENT →
        env.fbStatus ≠ GL_FRAMEBUFFER_INCOMPLETE_MISSING_ATTACHMENT →
        (create_dxgi_swapchain env (RawWindowHandle.Win32 hwnd)).2 =
          Except.error (Problem.Failure (msgOtherStatus env.fbStatus))) := by
  have hres : (create_dxgi_swapchain env (RawWindowHandle.Win32 hwnd)).2 =
      (statusStep env env.openDeviceHandle env.registerRenderbufferHandle env.fboName).2 := by
    simp [create_dxgi_swapchain, deviceAndSwapchainStep, extensionsStep, extensionsEvents,
      extensionsOf, registrationStep, hintel, hd3d, hs, hext, hopen, hrb]
  refine ⟨?_, ?_, ?_, ?_, ?_⟩
  · intro hst
    rw [hres]
    simp [statusStep, checkStatusPolicy, hst]
  · intro hst
    rw [hres]
    simp [statusStep, checkStatusPolicy, hst, GL_FRAMEBUFFER_COMPLETE, GL_FRAMEBUFFER_UNSUPPORTED]
  · intro hst
    rw [hres]
    simp [statusStep, checkStatusPolicy, hst, GL_FRAMEBUFFER_COMPLETE,
      GL_FRAMEBUFFER_UNSUPPORTED, GL_FRAMEBUFFER_INCOMPLETE_ATTACHMENT]
  · intro hst
    rw [hres]
    simp [statusStep, checkStatusPolicy, hst, GL_FRAMEBUFFER_COMPLETE,
      GL_FRAMEBUFFER_UNSUPPORTED, GL_FRAMEBUFFER_INCOMPLETE_ATTACHMENT,
      GL_FRAMEBUFFER_INCOMPLETE_MISSING_ATTACHMENT]
  · intro h1 h2 h3 h4
    rw [hres]
    simp [statusStep, checkStatusPolicy, h1, h2, h3, h4]

/-- Witness for C3: the concrete success environment reports a complete
framebuffer and the construction returns the assembled context. -/
theorem c3_witness :
    (create_dxgi_swapchain envOk (RawWindowHandle.Win32 0)).2 =
      Except.ok { gl_handle_d3d := 5, color_handle_gl := 7, fbo := 1 } :=
  (c3_framebuffer_status_policy envOk 0 extsWithToken (by decide) (by decide) rfl
    (by decide) (by decide) (by decide)).1 rfl

/-- The success environment with the interop token missing from the
extensions string. -/
def envNoToken : DriverEnv := { envOk with extensionsString := Option.some extsWithoutToken }

/-- Counterexample to C4 as stated: with the interop token absent the result
is Unsupported, but the native device, context and swapchain creation call is
in the trace, so the termination does not happen before device/swapchain
creation. -/
theorem c4_counterexample_device_created_first :
    (create_dxgi_swapchain envNoToken (RawWindowHandle.Win32 0)).2 =
        Except.error Problem.Unsupported
    ∧ Event.createDeviceAndSwapChain D3D_DRIVER_TYPE_HARDWARE 0 (swapChainDescFor 0) ∈
        (create_dxgi_swapchain envNoToken (RawWindowHandle.Win32 0)).1 := by
  decide

/-- Claim C4 (amended): when the extensions string lacks the interop token
(including when the query entry point cannot be resolved), construction
returns Unsupported without resolving any of the seven interop entry points
and without any interop device or registration call; the device, context and
swapchain creation, however, precedes the check and is in the trace. -/
theorem c4_amended_unsupported_before_interop (env : DriverEnv) (hwnd : Int)
    (hintel : is_intel_gpu env.vendor = false)
    (hd3d : env.d3dCreateOk = true)
    (hnotok : containsSubstr (extensionsOf env) interopToken = false) :
    (create_dxgi_swapchain env (RawWindowHandle.Win32 hwnd)).2 =
        Except.error Problem.Unsupported
    ∧ (∀ e ∈ (create_dxgi_swapchain env (RawWindowHandle.Win32 hwnd)).1,
        Event.isInteropResolve e = false ∧ Event.isOpenDevice e = false ∧
          Event.isRegisterObject e = false)
    ∧ Event.createDeviceAndSwapChain D3D_DRIVER_TYPE_HARDWARE 0 (swapChainDescFor hwnd) ∈
        (create_dxgi_swapchain env (RawWindowHandle.Win32 hwnd)).1 := by
  have hred : create_dxgi_swapchain env (RawWindowHandle.Win32 hwnd) =
      ([Event.queryVendor,
        Event.createDeviceAndSwapChain D3D_DRIVER_TYPE_HARDWARE 0 (swapChainDescFor hwnd),
        Event.resolveProcAddress extStringFnName] ++ extensionsEvents env,
       Except.error Problem.Unsupported) := by
    simp [create_dxgi_swapchain, deviceAndSwapchainStep, extensionsStep, hintel, hd3d, hnotok]
  refine ⟨by rw [hred], ?_, by rw [hred]; simp⟩
  rw [hred]
  intro e he
  have hext3 : e ∈ extensionsEvents env → e = Event.getExtensionsString := by
    cases henv : env.extensionsString <;> simp [extensionsEvents, henv]
  simp only [List.mem_append, List.mem_cons, List.not_mem_nil, or_false] at he
  rcases he with (rfl | rfl | rfl) | hmem
  · exact ⟨rfl, rfl, rfl⟩
  · exact ⟨rfl, rfl, rfl⟩
  · exact ⟨by decide, rfl, rfl⟩
  · rw [hext3 hmem]
    exact ⟨rfl, rfl, rfl⟩

/-- Witness for the amended C4 at the concrete token-less environment. -/
theorem c4_amended_witness :
    (create_dxgi_swapchain envNoToken (RawWindowHandle.Win32 0)).2 =
        Except.error Problem.Unsupported
    ∧ (∀ e ∈ (create_dxgi_swapchain envNoToken (RawWindowHandle.Win32 0)).1,
        Event.isInteropResolve e = false ∧ Event.isOpenDevice e = false ∧
          Event.isRegisterObject e = false)
    ∧ Event.createDeviceAndSwapChain D3D_DRIVER_TYPE_HARDWARE 0 (swapChainDescFor 0) ∈
        (create_dxgi_swapchain envNoToken (RawWindowHandle.Win32 0)).1 :=
  c4_amended_unsupported_before_interop envNoToken 0 (by decide) (by decide) (by decide)

/-- Claim C6: a successfully constructed context has a valid interop device
handle and a valid shared-object handle; if the open-device call or both
registration attempts return invalid handles, no context is returned. -/
theorem c6_no_partial_context (env : DriverEnv) (h : RawWindowHandle) :
    (∀ ctx : DXGIInterop, (create_dxgi_swapchain env h).2 = Except.ok ctx →
        HANDLE.isInvalid ctx.gl_handle_d3d = false
        ∧ HANDLE.isInvalid ctx.color_handle_gl = false)
    ∧ ((HANDLE.isInvalid env.openDeviceHandle = true ∨
          (HANDLE.isInvalid env.registerRenderbufferHandle = true ∧
           HANDLE.isInvalid env.registerTextureHandle = true)) →
        ∀ ctx : DXGIInterop, (create_dxgi_swapchain env h).2 ≠ Except.ok ctx) := by
  constructor
  · intro ctx hok
    have hreg := registrationStep_ok_inv env ctx (create_ok_inv env h ctx hok)
    exact ⟨hreg.1, hreg.2.1⟩
  · intro hbad ctx hok
    have hreg := registrationStep_ok_inv env ctx (create_ok_inv env h ctx hok)
    rcases hbad with hbad | ⟨hbad1, hbad2⟩
    · rw [hreg.2.2.1] at hbad
      exact Bool.false_ne_true hbad
    · rcases hreg.2.2.2 with hv | hv
      · rw [hv] at hbad1
        exact Bool.false_ne_true hbad1
      · rw [hv] at hbad2
        exact Bool.false_ne_true hbad2

/-- Witness for C6: the concrete success environment yields a context whose
two handles are valid. -/
theorem c6_witness :
    HANDLE.isInvalid (5 : Int) = false ∧ HANDLE.isInvalid (7 : Int) = false :=
  (c6_no_partial_context envOk (RawWindowHandle.Win32 0)).1
    { gl_handle_d3d := 5, color_handle_gl := 7, fbo := 1 } (by decide)

/-- Claim C7: the device-and-swapchain request uses the hardware driver type,
creation flags 0 (so the single-threaded flag is not set), buffer count 2,
the 8-bit RGBA format, windowed mode, sample count 1 with quality 0, and the
discard swap effect. -/
theorem c7_device_swapchain_parameters (env : DriverEnv) (hwnd : Int)
    (hintel : is_intel_gpu env.vendor = false) :
    Event.createDeviceAndSwapChain D3D_DRIVER_TYPE_HARDWARE 0 (swapChainDescFor hwnd) ∈
        (create_dxgi_swapchain env (RawWindowHandle.Win32 hwnd)).1
    ∧ (swapChainDescFor hwnd).bufferCount = 2
    ∧ (swapChainDescFor hwnd).format = DXGI_FORMAT_R8G8B8A8_UNORM
    ∧ (swapChainDescFor hwnd).windowed = true
    ∧ (swapChainDescFor hwnd).sampleCount = 1
    ∧ (swapChainDescFor hwnd).sampleQuality = 0
    ∧ (swapChainDescFor hwnd).swapEffect = DXGI_SWAP_EFFECT_DISCARD
    ∧ 0 &&& D3D11_CREATE_DEVICE_SINGLETHREADED = 0 := by
  refine ⟨?_, rfl, rfl, rfl, rfl, rfl, rfl, rfl⟩
  simp [create_dxgi_swapchain, hintel]

/-- Witness for C7 at the concrete success environment. -/
theorem c7_witness :
    Event.createDeviceAndSwapChain D3D_DRIVER_TYPE_HARDWARE 0 (swapChainDescFor 0) ∈
        (create_dxgi_swapchain envOk (RawWindowHandle.Win32 0)).1
    ∧ (swapChainDescFor 0).bufferCount = 2
    ∧ (swapChainDescFor 0).format = DXGI_FORMAT_R8G8B8A8_UNORM
    ∧ (swapChainDescFor 0).windowed = true
    ∧ (swapChainDescFor 0).sampleCount = 1
    ∧ (swapChainDescFor 0).sampleQuality = 0
    ∧ (swapChainDescFor 0).swapEffect = DXGI_SWAP_EFFECT_DISCARD
    ∧ 0 &&& D3D11_CREATE_DEVICE_SINGLETHREADED = 0 :=
  c7_device_swapchain_parameters envOk 0 (by decide)
